import Mathlib

/-!
Verification of the HealthKart influencer campaign dashboard
(`src/dashboard.py`) against its natural-language specification.

The program is a linear pandas pipeline: CSV ingestion, two left joins
with null-filling, filter application, groupby aggregations, and a
report generator. This file gives a shallow embedding of that pipeline:

* tables are Lean lists of records; nullable CSV / join-produced cells
  are `Option` values (pandas `NaN`);
* money values are `ℚ` (the source's floats carry exact decimal data);
* float division by zero is modelled by `PVal` (`num`/`posInf`/`negInf`/
  `nan`), matching IEEE semantics for finite numerators, since the
  source relies on `replace([inf, -inf], nan)` + `fillna(0)` guards in
  some aggregations and omits them in others;
* `pd.merge(..., how='left')` produces, for each left row, one output
  row per matching right row, or a single row with null right columns
  when nothing matches; merge on a null key never matches (pandas
  semantics);
* `groupby(key)` drops null keys and sorts the group keys ascending
  (pandas defaults `dropna=True`, `sort=True`);
* `sort_values` is modelled by a stable insertion sort.  pandas'
  default `kind='quicksort'` is deterministic but documents no tie
  order; every concrete theorem below that depends on a sort uses
  distinct keys, where all comparison sorts agree;
* the fallible stages (missing CSVs, tuple unpacking of the date
  range) return `Except String`.
-/

namespace Dashboard

/-- Row of `influencers.csv`: columns `ID, name, category, platform`. -/
structure Influencer where
  ID : Nat
  name : String
  category : String
  platform : String
deriving DecidableEq

/-- Row of `posts.csv`: columns `influencer_id, date, reach, likes, comments`.
Only displayed, never aggregated, by the part of the source under
verification; carried through ingestion for the failure-surface claims. -/
structure Post where
  influencer_id : Option Nat
  date : Int
  reach : Nat
  likes : Nat
  comments : Nat
deriving DecidableEq

/-- Row of `tracking_data.csv`: columns `influencer_id` (nullable — absence
means organic traffic), `date` (already parsed to an abstract day number),
`source`, `revenue` (nullable cell, filled later). -/
structure TrackingRecord where
  influencer_id : Option Nat
  date : Int
  source : String
  revenue : Option ℚ
deriving DecidableEq

/-- Row of `payouts.csv`: columns `influencer_id, total_payout`. -/
structure PayoutRecord where
  influencer_id : Nat
  total_payout : ℚ
deriving DecidableEq

/-- Row of the merged frame `campaign_data` (dashboard.py lines 28-36):
tracking columns plus the left-joined influencer columns (`ID`,
`category`, `platform`) and payout column (`total_payout`), each
nullable until the `fillna` pass. -/
structure URecord where
  influencer_id : Option Nat
  date : Int
  source : String
  revenue : Option ℚ
  ID : Option Nat
  category : Option String
  platform : Option String
  total_payout : Option ℚ
deriving DecidableEq

/-- One step of `pd.merge(tracking_df, influencers_df, left_on='influencer_id',
right_on='ID', how='left')` (line 28): a tracking row is joined with every
influencer row whose `ID` equals its `influencer_id`; with no match the
influencer columns are null.  A null `influencer_id` matches nothing. -/
def joinInfluencer (influencers : List Influencer) (t : TrackingRecord) : List URecord :=
  match influencers.filter (fun i => t.influencer_id == some i.ID) with
  | [] => [⟨t.influencer_id, t.date, t.source, t.revenue, none, none, none, none⟩]
  | m :: ms => (m :: ms).map fun i =>
      ⟨t.influencer_id, t.date, t.source, t.revenue, some i.ID, some i.category, some i.platform, none⟩

/-- One step of `pd.merge(campaign_data, payouts_df, on='influencer_id',
how='left')` (line 29). -/
def joinPayout (payouts : List PayoutRecord) (r : URecord) : List URecord :=
  match payouts.filter (fun p => r.influencer_id == some p.influencer_id) with
  | [] => [r]
  | q :: qs => (q :: qs).map fun p => { r with total_payout := some p.total_payout }

/-- The `fillna` pass of lines 32-35: `category` and `platform` default to
"Organic", `total_payout` and `revenue` to 0. -/
def fillDefaults (r : URecord) : URecord :=
  { r with
    category := some (r.category.getD "Organic")
    platform := some (r.platform.getD "Organic")
    total_payout := some (r.total_payout.getD 0)
    revenue := some (r.revenue.getD 0) }

/-- The merged and normalized frame `campaign_data` (lines 28-36). -/
def campaign_data (tracking : List TrackingRecord) (influencers : List Influencer)
    (payouts : List PayoutRecord) : List URecord :=
  ((tracking.flatMap (joinInfluencer influencers)).flatMap (joinPayout payouts)).map fillDefaults

/-- The sidebar filter state: `date_range` is the tuple returned by the date
widget (0, 1 or 2 selected dates), `selected_categories` and
`selected_platforms` are the multiselect values. -/
structure Filter where
  date_range : List Int
  selected_categories : List String
  selected_platforms : List String
deriving DecidableEq

/-- The row predicate of `filtered_df['category'].isin(selected_categories)`
(line 66); pandas `isin` is false on a null cell. -/
def catPass (f : Filter) (r : URecord) : Bool :=
  match r.category with
  | some c => f.selected_categories.contains c
  | none => false

/-- The row predicate of `filtered_df['platform'].isin(selected_platforms)`
(line 68). -/
def platPass (f : Filter) (r : URecord) : Bool :=
  match r.platform with
  | some c => f.selected_platforms.contains c
  | none => false

/-- Category predicate step of lines 65-66: skipped entirely when "All" is
among the selected categories. -/
def categoryStep (f : Filter) (rows : List URecord) : List URecord :=
  if f.selected_categories.contains "All" then rows
  else rows.filter (catPass f)

/-- Platform predicate step of lines 67-68. -/
def platformStep (f : Filter) (rows : List URecord) : List URecord :=
  if f.selected_platforms.contains "All" then rows
  else rows.filter (platPass f)

/-- The full filter application of lines 64-71 producing `filtered_df`.
The date step runs only when `date_range` is non-empty (`if date_range:`)
and unpacks it as `start_date, end_date = date_range`, which raises a
`ValueError` for any non-empty tuple that is not a pair. -/
def filtered_df (rows : List URecord) (f : Filter) : Except String (List URecord) :=
  let r2 := platformStep f (categoryStep f rows)
  match f.date_range with
  | [] => .ok r2
  | [start_date, end_date] =>
      .ok (r2.filter fun r => decide (start_date ≤ r.date) && decide (r.date ≤ end_date))
  | _ => .error "ValueError: date_range does not unpack into (start_date, end_date)"

/-- KPI of line 75: `filtered_df['revenue'].sum()` (pandas `sum` skips null
cells, i.e. treats them as 0). -/
def total_revenue (rows : List URecord) : ℚ :=
  (rows.map fun r => r.revenue.getD 0).sum

/-- KPI of line 76: `filtered_df['total_payout'].sum()`. -/
def total_payout (rows : List URecord) : ℚ :=
  (rows.map fun r => r.total_payout.getD 0).sum

/-- Line 77: `tracking_df[tracking_df['source'] == 'organic']['revenue'].sum()` —
computed from the raw, unfiltered tracking table. -/
def organic_revenue_baseline (tracking : List TrackingRecord) : ℚ :=
  ((tracking.filter fun t => t.source == "organic").map fun t => t.revenue.getD 0).sum

/-- Line 78: `filtered_df[filtered_df['source'] == 'influencer']['revenue'].sum()`. -/
def influencer_revenue (rows : List URecord) : ℚ :=
  ((rows.filter fun r => r.source == "influencer").map fun r => r.revenue.getD 0).sum

/-- Line 81: overall ROI with the inline zero-payout guard. -/
def roi (rows : List URecord) : ℚ :=
  if 0 < total_payout rows then (total_revenue rows - total_payout rows) / total_payout rows
  else 0

/-- Line 82: the dashboard's incremental ROAS; the organic baseline term
comes from the unfiltered tracking table. -/
def incremental_roas (rows : List URecord) (tracking : List TrackingRecord) : ℚ :=
  if 0 < total_payout rows then
    (influencer_revenue rows - organic_revenue_baseline tracking) / total_payout rows
  else 0

/-- The named intermediate values of the KPI block (lines 75-82). -/
structure KPI where
  total_revenue : ℚ
  total_payout : ℚ
  organic_revenue_baseline : ℚ
  influencer_revenue : ℚ
  roi : ℚ
  incremental_roas : ℚ
deriving DecidableEq

/-- KPI block of lines 75-82 as a function of the raw tracking table and the
filtered record set. -/
def dashboardKPI (tracking : List TrackingRecord) (rows : List URecord) : KPI :=
  { total_revenue := total_revenue rows
    total_payout := total_payout rows
    organic_revenue_baseline := organic_revenue_baseline tracking
    influencer_revenue := influencer_revenue rows
    roi := roi rows
    incremental_roas := incremental_roas rows tracking }

/-- Value of a float cell produced by a pandas division: a finite rational,
a signed infinity, or NaN.  The source's revenue/payout sums are always
finite, so only the division can introduce the non-finite values. -/
inductive PVal where
  | num (q : ℚ)
  | posInf
  | negInf
  | nan
deriving DecidableEq

/-- IEEE-style division of two finite values, as numpy/pandas perform it on
float columns: division by zero gives `+inf`, `-inf` or `nan` according to
the sign of the numerator. -/
def pdiv (a b : ℚ) : PVal :=
  if b = 0 then
    if 0 < a then .posInf else if a < 0 then .negInf else .nan
  else .num (a / b)

/-- The guard pass `replace([np.inf, -np.inf], np.nan)` followed by
`fillna(0)` (e.g. lines 153-154): every non-finite value becomes 0. -/
def replaceFillZero : PVal → PVal
  | .num q => .num q
  | _ => .num 0

/-- Whether a float cell holds a finite number (not NaN or an infinity). -/
def PVal.finite : PVal → Bool
  | .num _ => true
  | _ => false

/-- Float comparison on cells: NaN compares false against everything,
`-inf` below every number, `+inf` above. -/
def PVal.ltb : PVal → PVal → Bool
  | .nan, _ => false
  | _, .nan => false
  | .negInf, .negInf => false
  | .negInf, _ => true
  | _, .negInf => false
  | .posInf, _ => false
  | .num _, .posInf => true
  | .num a, .num b => decide (a < b)

/-- Insert for the stable insertion sort: `x` is placed before the first
element that does not have to come strictly before it. -/
def insertBy (lt : α → α → Bool) (x : α) : List α → List α
  | [] => [x]
  | y :: ys => if lt y x then y :: insertBy lt x ys else x :: y :: ys

/-- Stable sort placing `a` before `b` whenever `lt a b`; elements neither
of which must precede the other keep their input order.  Model of
`DataFrame.sort_values` (see the header note on tie order). -/
def sortValues (lt : α → α → Bool) (l : List α) : List α :=
  l.foldr (insertBy lt) []

/-- Deduplicate, keeping first occurrences. -/
def dedup [BEq α] (l : List α) : List α :=
  l.foldl (fun acc k => if acc.contains k then acc else acc ++ [k]) []

/-- Lexicographic order on character lists by codepoint. -/
def charsLt : List Char → List Char → Bool
  | [], [] => false
  | [], _ :: _ => true
  | _ :: _, [] => false
  | c :: cs, d :: ds =>
    if c.toNat < d.toNat then true
    else if d.toNat < c.toNat then false
    else charsLt cs ds

/-- Lexicographic order on strings, pandas' ordering of string group keys. -/
def strLt (a b : String) : Bool := charsLt a.data b.data

/-- Sum of the (null-skipping) `revenue` column over the rows of a group. -/
def sumRevenue (rows : List URecord) : ℚ :=
  (rows.map fun r => r.revenue.getD 0).sum

/-- Sum of the (null-skipping) `total_payout` column over the rows of a group. -/
def sumPayout (rows : List URecord) : ℚ :=
  (rows.map fun r => r.total_payout.getD 0).sum

/-- One output group of a `groupby(key).agg(total_revenue=..., total_payout=...)`
with the subsequently added `ROI` column. -/
structure GroupPerf (κ : Type) where
  key : κ
  total_revenue : ℚ
  total_payout : ℚ
  ROI : PVal
deriving DecidableEq

/-- `groupby(key).agg(total_revenue=('revenue','sum'),
total_payout=('total_payout','sum')).reset_index()`: null keys are dropped
and the group keys are sorted ascending (pandas defaults). -/
def groupTotals [BEq κ] (ltk : κ → κ → Bool) (key : URecord → Option κ)
    (rows : List URecord) : List (κ × ℚ × ℚ) :=
  (sortValues ltk (dedup (rows.filterMap key))).map fun k =>
    (k, sumRevenue (rows.filter fun r => key r == some k),
        sumPayout (rows.filter fun r => key r == some k))

/-- The dashboard's category chart table (lines 131-135): grouped totals by
category with `ROI = (total_revenue - total_payout) / total_payout` and NO
guard against division by zero. -/
def category_revenue (rows : List URecord) : List (GroupPerf String) :=
  (groupTotals strLt (fun r => r.category) rows).map fun g =>
    ⟨g.1, g.2.1, g.2.2, pdiv (g.2.1 - g.2.2) g.2.2⟩

/-- The report's category table (lines 212-218): same totals, but the ROI
column passes through `replace([inf,-inf], nan)` + `fillna(0)`. -/
def category_performance (rows : List URecord) : List (GroupPerf String) :=
  (groupTotals strLt (fun r => r.category) rows).map fun g =>
    ⟨g.1, g.2.1, g.2.2, replaceFillZero (pdiv (g.2.1 - g.2.2) g.2.2)⟩

/-- The report's platform table (lines 221-227), guarded like the category
table. -/
def platform_performance (rows : List URecord) : List (GroupPerf String) :=
  (groupTotals strLt (fun r => r.platform) rows).map fun g =>
    ⟨g.1, g.2.1, g.2.2, replaceFillZero (pdiv (g.2.1 - g.2.2) g.2.2)⟩

/-- A row of the influencer leaderboard after the merge with
`influencers_df[['ID','name','category','platform']]`. -/
structure InflPerf where
  ID : Nat
  total_revenue : ℚ
  total_payout : ℚ
  ROI : PVal
  name : String
  category : String
  platform : String
deriving DecidableEq

/-- Lines 148-157 (and, identically, 242-249 inside the report): group the
filtered rows by the joined `ID` (null for organic rows, which pandas
`groupby` drops), add the guarded ROI column, and inner-merge with the
influencer roster for `name`/`category`/`platform`. -/
def influencer_perf_table (rows : List URecord) (influencers : List Influencer) :
    List InflPerf :=
  ((groupTotals (fun a b => decide (a < b)) (fun r => r.ID) rows).map fun g =>
    (⟨g.1, g.2.1, g.2.2, replaceFillZero (pdiv (g.2.1 - g.2.2) g.2.2)⟩ : GroupPerf Nat)).flatMap
    fun g => (influencers.filter fun i => i.ID == g.key).map fun i =>
      ⟨g.key, g.total_revenue, g.total_payout, g.ROI, i.name, i.category, i.platform⟩

/-- Descending-by-ROI order used by lines 158 and 251. -/
def roiDesc (a b : InflPerf) : Bool := PVal.ltb b.ROI a.ROI

/-- Ascending-by-ROI order used by line 252. -/
def roiAsc (a b : InflPerf) : Bool := PVal.ltb a.ROI b.ROI

/-- Line 158: the leaderboard frame `influencer_performance`, sorted
descending by ROI. -/
def influencer_performance (rows : List URecord) (influencers : List Influencer) :
    List InflPerf :=
  sortValues roiDesc (influencer_perf_table rows influencers)

/-- Pandas `DataFrame.tail n`: the last `n` rows in frame order. -/
def tailN (n : Nat) (l : List α) : List α := l.drop (l.length - n)

/-- The dashboard's "Top 10 Influencers by ROI" table (line 165). -/
def top_10_influencers (rows : List URecord) (influencers : List Influencer) :
    List InflPerf :=
  (influencer_performance rows influencers).take 10

/-- The dashboard's "Poor Performing Influencers" table (line 174):
`influencer_performance.tail(10)` of the DESCENDING sort, displayed in
frame order. -/
def poor_performing_influencers (rows : List URecord) (influencers : List Influencer) :
    List InflPerf :=
  tailN 10 (influencer_performance rows influencers)

/-- Line 251: the report's top-3 influencers (descending head). -/
def top_influencers (rows : List URecord) (influencers : List Influencer) :
    List InflPerf :=
  (sortValues roiDesc (influencer_perf_table rows influencers)).take 3

/-- Line 252: the report's bottom-3 influencers (ascending head). -/
def poor_influencers (rows : List URecord) (influencers : List Influencer) :
    List InflPerf :=
  (sortValues roiAsc (influencer_perf_table rows influencers)).take 3

/-- Report line 200: `filtered_df['revenue'].sum()`. -/
def total_revenue_val (rows : List URecord) : ℚ :=
  (rows.map fun r => r.revenue.getD 0).sum

/-- Report line 201: `filtered_df['total_payout'].sum()`. -/
def total_payout_val (rows : List URecord) : ℚ :=
  (rows.map fun r => r.total_payout.getD 0).sum

/-- Report line 202: overall ROI with the inline zero-payout guard. -/
def roi_val (rows : List URecord) : ℚ :=
  if 0 < total_payout_val rows then
    (total_revenue_val rows - total_payout_val rows) / total_payout_val rows
  else 0

/-- The influencer-revenue subterm of report line 203:
`filtered_df[filtered_df['source'] == 'influencer']['revenue'].sum()`. -/
def report_influencer_term (rows : List URecord) : ℚ :=
  ((rows.filter fun r => r.source == "influencer").map fun r => r.revenue.getD 0).sum

/-- The organic subterm of report line 203:
`filtered_df[filtered_df['source'] == 'organic']['revenue'].sum()` — computed
from the FILTERED record set, unlike the dashboard's baseline of line 77. -/
def report_organic_term (rows : List URecord) : ℚ :=
  ((rows.filter fun r => r.source == "organic").map fun r => r.revenue.getD 0).sum

/-- Report line 203: the report's incremental ROAS. -/
def incremental_roas_val (rows : List URecord) : ℚ :=
  if 0 < total_payout_val rows then
    (report_influencer_term rows - report_organic_term rows) / total_payout_val rows
  else 0

/-- The numeric values interpolated into the four overall-summary lines of
the generated report (lines 200-209). -/
def reportSummary (rows : List URecord) : ℚ × ℚ × ℚ × ℚ :=
  (total_revenue_val rows, roi_val rows, total_payout_val rows, incremental_roas_val rows)

/-- Everything the rendered page derives from a successful run: the KPI
block, the leaderboard tables, and the report's overall summary values. -/
structure DashboardView where
  kpis : KPI
  leaderboard_top : List InflPerf
  leaderboard_poor : List InflPerf
  report : ℚ × ℚ × ℚ × ℚ
deriving DecidableEq

/-- The whole pipeline, lines 18-275: ingestion of the four sources
(`st.stop()` on a missing one, before any join or metric), join and
normalize, filter, metrics, leaderboards and report. -/
def runDashboard (influencersSrc : Option (List Influencer)) (postsSrc : Option (List Post))
    (trackingSrc : Option (List TrackingRecord)) (payoutsSrc : Option (List PayoutRecord))
    (f : Filter) : Except String DashboardView :=
  match influencersSrc, postsSrc, trackingSrc, payoutsSrc with
  | some influencers, some _, some tracking, some payouts =>
      (filtered_df (campaign_data tracking influencers payouts) f).map fun rows =>
        { kpis := dashboardKPI tracking rows
          leaderboard_top := top_10_influencers rows influencers
          leaderboard_poor := poor_performing_influencers rows influencers
          report := reportSummary rows }
  | _, _, _, _ =>
      .error "CSV files not found. Please run the data generation script first."

/-! Concrete data sets used by the counterexamples and witnesses below. -/

/-- Roster with a single influencer (the end-to-end scenario of spec §8.8). -/
def sampleInfluencers : List Influencer := [⟨1, "X", "Beauty", "Instagram"⟩]

/-- Tracking set: one influencer-attributed row on day 0, organic rows on
days 0 and 5. -/
def sampleTracking : List TrackingRecord :=
  [⟨some 1, 0, "influencer", some 100⟩, ⟨none, 0, "organic", some 50⟩,
   ⟨none, 5, "organic", some 30⟩]

/-- Payout of 40 for influencer 1. -/
def samplePayouts : List PayoutRecord := [⟨1, 40⟩]

/-- Sidebar state with every filter inactive. -/
def allFilter : Filter := ⟨[], ["All"], ["All"]⟩

/-- Sidebar state restricting the date range to day 0 only. -/
def dayZeroFilter : Filter := ⟨[0, 0], ["All"], ["All"]⟩

/-- The unified record set of the sample data. -/
def sampleCampaign : List URecord :=
  campaign_data sampleTracking sampleInfluencers samplePayouts

/-- Roster with two influencers of distinct ROI. -/
def twoInfluencers : List Influencer :=
  [⟨1, "A", "Beauty", "Instagram"⟩, ⟨2, "B", "Fitness", "YouTube"⟩]

/-- Tracking rows giving influencer 1 an ROI of 3/2 and influencer 2 an ROI
of -3/4. -/
def twoTracking : List TrackingRecord :=
  [⟨some 1, 0, "influencer", some 100⟩, ⟨some 2, 0, "influencer", some 10⟩]

/-- Equal payouts of 40 for both influencers. -/
def twoPayouts : List PayoutRecord := [⟨1, 40⟩, ⟨2, 40⟩]

/-- The unified record set of the two-influencer data. -/
def twoCampaign : List URecord := campaign_data twoTracking twoInfluencers twoPayouts

/-- The rows of `sampleCampaign` that survive `dayZeroFilter`, written out. -/
def dayZeroRows : List URecord :=
  [⟨some 1, 0, "influencer", some 100, some 1, some "Beauty", some "Instagram", some 40⟩,
   ⟨none, 0, "organic", some 50, none, some "Organic", some "Organic", some 0⟩]

/-- A unified record set consisting of a single organic row: zero total
payout, positive revenue. -/
def organicOnlyCampaign : List URecord :=
  campaign_data [⟨none, 0, "organic", some 50⟩] [] []


end Dashboard

namespace Dashboard

/-! ## Theorems -/

unseal Rat.add Rat.sub Rat.mul Rat.inv in
/-- C1 (counterexample): the claim fails for the generated report.  On the
sample data, restricting the date filter to day 0 leaves organic revenue 50
in the filtered set while the full unfiltered tracking set has organic
revenue 80: the organic term of the report's incremental-ROAS formula (line
203) is computed from the filtered set, so it changes with the filter (80
under the all-pass filter, 50 under the day-0 filter), differs from the
fixed baseline of line 77, and makes the report's incremental ROAS (5/4)
disagree with the value computed from the unfiltered baseline (1/2). -/
theorem c1_report_baseline_counterexample :
    filtered_df sampleCampaign dayZeroFilter = .ok dayZeroRows
    ∧ filtered_df sampleCampaign allFilter = .ok sampleCampaign
    ∧ organic_revenue_baseline sampleTracking = 80
    ∧ report_organic_term sampleCampaign = 80
    ∧ report_organic_term dayZeroRows = 50
    ∧ report_organic_term dayZeroRows ≠ organic_revenue_baseline sampleTracking
    ∧ incremental_roas_val dayZeroRows = 5 / 4
    ∧ incremental_roas dayZeroRows sampleTracking = 1 / 2 :=
  ⟨rfl, rfl, by decide, by decide, by decide, by decide, by decide, by decide⟩

/-- C1 (amended): the baseline-independence property holds for the dashboard
KPI block only: for any two filter selections, the `organic_revenue_baseline`
term used by the KPI computation is the same, and equals the sum of revenue
over the full, unfiltered tracking set's rows with source "organic".  (The
generated report instead recomputes its organic term from the filtered set;
see the counterexample.) -/
theorem c1_dashboard_baseline_independent
    (tracking : List TrackingRecord) (influencers : List Influencer)
    (payouts : List PayoutRecord) (f₁ f₂ : Filter) (r₁ r₂ : List URecord)
    (h₁ : filtered_df (campaign_data tracking influencers payouts) f₁ = .ok r₁)
    (h₂ : filtered_df (campaign_data tracking influencers payouts) f₂ = .ok r₂) :
    (dashboardKPI tracking r₁).organic_revenue_baseline
      = (dashboardKPI tracking r₂).organic_revenue_baseline
    ∧ (dashboardKPI tracking r₁).organic_revenue_baseline
      = ((tracking.filter fun t => t.source == "organic").map fun t => t.revenue.getD 0).sum :=
  ⟨rfl, rfl⟩

/-- Witness for C1's amended theorem at the sample data, with the all-pass
filter and the day-0 filter. -/
theorem c1_dashboard_baseline_independent_witness :
    (dashboardKPI sampleTracking sampleCampaign).organic_revenue_baseline
      = (dashboardKPI sampleTracking dayZeroRows).organic_revenue_baseline
    ∧ (dashboardKPI sampleTracking sampleCampaign).organic_revenue_baseline
      = ((sampleTracking.filter fun t => t.source == "organic").map
          fun t => t.revenue.getD 0).sum :=
  c1_dashboard_baseline_independent sampleTracking sampleInfluencers samplePayouts
    allFilter dayZeroFilter sampleCampaign dayZeroRows rfl rfl

unseal Rat.add Rat.sub Rat.mul Rat.inv in
/-- C2 (counterexample): the report and the dashboard KPIs disagree for the
same filter scope.  On the sample data under the day-0 filter, the dashboard
shows incremental ROAS 1/2 while the report prints 5/4. -/
theorem c2_report_dashboard_disagree_counterexample :
    filtered_df sampleCampaign dayZeroFilter = .ok dayZeroRows
    ∧ (dashboardKPI sampleTracking dayZeroRows).incremental_roas = 1 / 2
    ∧ incremental_roas_val dayZeroRows = 5 / 4
    ∧ incremental_roas_val dayZeroRows
        ≠ (dashboardKPI sampleTracking dayZeroRows).incremental_roas :=
  ⟨rfl, by decide, by decide, by decide⟩

/-- C2 (amended): for the same filtered record set, the report's total
revenue, total payout and ROI always equal the dashboard's KPI values; its
incremental ROAS equals the dashboard's exactly when the filtered organic
revenue coincides with the full unfiltered organic baseline (or the total
payout guard zeroes both sides). -/
theorem c2_report_matches_dashboard_amended (rows : List URecord)
    (tracking : List TrackingRecord) :
    total_revenue_val rows = total_revenue rows
    ∧ total_payout_val rows = total_payout rows
    ∧ roi_val rows = roi rows
    ∧ (incremental_roas_val rows = incremental_roas rows tracking ↔
        total_payout rows ≤ 0 ∨ report_organic_term rows = organic_revenue_baseline tracking) := by
  refine ⟨rfl, rfl, rfl, ?_⟩
  by_cases hp : 0 < total_payout rows
  · have hp' : total_payout rows ≠ 0 := ne_of_gt hp
    have hguard : total_payout_val rows = total_payout rows := rfl
    have hinfl : report_influencer_term rows = influencer_revenue rows := rfl
    simp only [incremental_roas_val, incremental_roas, hguard, hinfl, if_pos hp]
    rw [div_left_inj' hp', sub_right_inj]
    exact ⟨Or.inr, fun h => h.resolve_left (not_le.mpr hp)⟩
  · have hle : total_payout rows ≤ 0 := not_lt.mp hp
    have hguard : total_payout_val rows = total_payout rows := rfl
    simp only [incremental_roas_val, incremental_roas, hguard, if_neg hp]
    exact iff_of_true trivial (Or.inl hle)

/-- C8: if any of the four input sources is missing, the pipeline returns
the ingestion error before any join, filter or metrics computation, and no
dashboard view is produced. -/
theorem c8_missing_source_fails_fast (influencersSrc : Option (List Influencer))
    (postsSrc : Option (List Post)) (trackingSrc : Option (List TrackingRecord))
    (payoutsSrc : Option (List PayoutRecord)) (f : Filter)
    (h : influencersSrc = none ∨ postsSrc = none ∨ trackingSrc = none ∨ payoutsSrc = none) :
    runDashboard influencersSrc postsSrc trackingSrc payoutsSrc f
      = .error "CSV files not found. Please run the data generation script first." := by
  rcases h with h | h | h | h
  · subst h; cases postsSrc <;> cases trackingSrc <;> cases payoutsSrc <;> rfl
  · subst h; cases influencersSrc <;> cases trackingSrc <;> cases payoutsSrc <;> rfl
  · subst h; cases influencersSrc <;> cases postsSrc <;> cases payoutsSrc <;> rfl
  · subst h; cases influencersSrc <;> cases postsSrc <;> cases trackingSrc <;> rfl

/-- Witness for C8: all four sources missing. -/
theorem c8_missing_source_fails_fast_witness :
    runDashboard none none none none allFilter
      = .error "CSV files not found. Please run the data generation script first." :=
  c8_missing_source_fails_fast none none none none allFilter (Or.inl rfl)

/-- C10: the date predicate is applied only for a non-empty selected range;
an exact (start, end) pair is required.  An empty range skips the date step,
a two-element range applies the closed-interval predicate, and any other
non-empty range (a single selected date, or more than two) aborts the filter
step with the unpacking error. -/
theorem c10_date_range_unpacking (rows : List URecord) (cats plats : List String) :
    (filtered_df rows ⟨[], cats, plats⟩
      = .ok (platformStep ⟨[], cats, plats⟩ (categoryStep ⟨[], cats, plats⟩ rows)))
    ∧ (∀ s e : Int, filtered_df rows ⟨[s, e], cats, plats⟩
      = .ok ((platformStep ⟨[s, e], cats, plats⟩ (categoryStep ⟨[s, e], cats, plats⟩ rows)).filter
          fun r => decide (s ≤ r.date) && decide (r.date ≤ e)))
    ∧ (∀ s : Int, filtered_df rows ⟨[s], cats, plats⟩
      = .error "ValueError: date_range does not unpack into (start_date, end_date)")
    ∧ (∀ s e x : Int, ∀ l : List Int, filtered_df rows ⟨s :: e :: x :: l, cats, plats⟩
      = .error "ValueError: date_range does not unpack into (start_date, end_date)") :=
  ⟨rfl, fun _ _ => rfl, fun _ => rfl, fun _ _ _ _ => rfl⟩


/-- The ROI guard `replace([inf,-inf], nan)` + `fillna(0)` always yields a
finite value. -/
theorem replaceFillZero_finite (v : PVal) : (replaceFillZero v).finite = true := by
  cases v <;> rfl

/-- Dividing by a zero total payout always produces a non-finite value,
which the guard maps to exactly 0. -/
theorem replaceFillZero_pdiv_zero (a : ℚ) : replaceFillZero (pdiv a 0) = .num 0 := by
  unfold pdiv
  rw [if_pos rfl]
  split_ifs <;> rfl

/-- A row of any guarded performance table has a finite ROI, and ROI
exactly 0 whenever its total payout is 0. -/
theorem guardedPerf_mem {κ : Type} (l : List (κ × ℚ × ℚ)) (g : GroupPerf κ)
    (h : g ∈ l.map fun p =>
      (⟨p.1, p.2.1, p.2.2, replaceFillZero (pdiv (p.2.1 - p.2.2) p.2.2)⟩ : GroupPerf κ)) :
    g.ROI.finite = true ∧ (g.total_payout = 0 → g.ROI = .num 0) := by
  obtain ⟨p, -, rfl⟩ := List.mem_map.mp h
  refine ⟨replaceFillZero_finite _, fun h0 => ?_⟩
  show replaceFillZero (pdiv (p.2.1 - p.2.2) p.2.2) = PVal.num 0
  have h0' : p.2.2 = 0 := h0
  rw [h0']
  exact replaceFillZero_pdiv_zero _

unseal Rat.add Rat.sub Rat.mul Rat.inv in
/-- C3 (counterexample): the dashboard's category chart computes its ROI
column (line 135) with no division guard.  A record set consisting of one
organic row with revenue 50 and total payout 0 (obtained here from the real
join on a tracking table with a single organic row) makes that aggregation
produce ROI = +Infinity. -/
theorem c3_category_chart_counterexample :
    category_revenue organicOnlyCampaign = [⟨"Organic", 50, 0, PVal.posInf⟩]
    ∧ PVal.posInf.finite = false :=
  ⟨by decide, rfl⟩

/-- C3 (amended): every GUARDED aggregation keeps the claimed property
— the influencer tables (dashboard and report), and the report's category
and platform tables, never hold a NaN/Infinity ROI and yield ROI exactly 0
for a zero-payout group; the overall ROI KPI yields 0 for zero payout.  The
dashboard's category chart (see the counterexample) is the one aggregation
that violates the claim. -/
theorem c3_guarded_roi_amended (rows : List URecord) (influencers : List Influencer) :
    (∀ g ∈ category_performance rows, g.ROI.finite = true ∧ (g.total_payout = 0 → g.ROI = .num 0))
    ∧ (∀ g ∈ platform_performance rows, g.ROI.finite = true ∧ (g.total_payout = 0 → g.ROI = .num 0))
    ∧ (∀ e ∈ influencer_perf_table rows influencers,
        e.ROI.finite = true ∧ (e.total_payout = 0 → e.ROI = .num 0))
    ∧ (total_payout rows = 0 → roi rows = 0) := by
  refine ⟨?_, ?_, ?_, ?_⟩
  · intro g hg
    exact guardedPerf_mem _ g hg
  · intro g hg
    exact guardedPerf_mem _ g hg
  · intro e he
    obtain ⟨g, hg, he2⟩ := List.mem_flatMap.mp he
    obtain ⟨i, -, rfl⟩ := List.mem_map.mp he2
    exact guardedPerf_mem _ g hg
  · intro h0
    simp [roi, h0]

unseal Rat.add Rat.sub Rat.mul Rat.inv in
/-- Witness for C3's amended theorem: the zero-payout "Organic" group of the
report's category table on the sample data has a finite ROI, exactly 0. -/
theorem c3_guarded_roi_amended_witness :
    (⟨"Organic", 80, 0, PVal.num 0⟩ : GroupPerf String).ROI.finite = true
    ∧ ((⟨"Organic", 80, 0, PVal.num 0⟩ : GroupPerf String).total_payout = 0
        → (⟨"Organic", 80, 0, PVal.num 0⟩ : GroupPerf String).ROI = PVal.num 0) :=
  (c3_guarded_roi_amended sampleCampaign sampleInfluencers).1 ⟨"Organic", 80, 0, PVal.num 0⟩
    (by decide)

/-- Inserting one element grows a list by one. -/
theorem length_insertBy (lt : α → α → Bool) (x : α) (l : List α) :
    (insertBy lt x l).length = l.length + 1 := by
  induction l with
  | nil => rfl
  | cons y ys ih =>
    unfold insertBy
    split
    · simp [ih]
    · simp

/-- The sort model is a permutation in length. -/
theorem length_sortValues (lt : α → α → Bool) (l : List α) :
    (sortValues lt l).length = l.length := by
  induction l with
  | nil => rfl
  | cons x xs ih =>
    show (insertBy lt x (sortValues lt xs)).length = xs.length + 1
    rw [length_insertBy, ih]

unseal Rat.add Rat.sub Rat.mul Rat.inv in
/-- C5 (counterexample): with exactly two influencers (ROI 3/2 and -3/4),
the dashboard's "Poor Performing Influencers" table is `tail(10)` of the
DESCENDING leaderboard displayed in frame order: it lists the 3/2-ROI
influencer first, i.e. in ROI-descending order, and is NOT the first 10 of
the ascending sort that the claim prescribes. -/
theorem c5_dashboard_bottom_counterexample :
    poor_performing_influencers twoCampaign twoInfluencers
      = [⟨1, 100, 40, PVal.num (3 / 2), "A", "Beauty", "Instagram"⟩,
         ⟨2, 10, 40, PVal.num (-3 / 4), "B", "Fitness", "YouTube"⟩]
    ∧ poor_performing_influencers twoCampaign twoInfluencers
        ≠ (sortValues roiAsc (influencer_perf_table twoCampaign twoInfluencers)).take 10
    ∧ PVal.ltb (PVal.num (-3 / 4)) (PVal.num (3 / 2)) = true :=
  ⟨by decide, by decide, by decide⟩

/-- C5 (amended): with exactly 2 influencers no operation errors and every
leaderboard shows both entries: the dashboard's top-10 and poor-performers
tables, and the report's top-3, all equal the full ROI-descending
leaderboard (so the dashboard's "bottom" list is in descending, not
ascending, order), while the report's bottom-3 equals the full ascending
sort.  Only the report's bottom list matches the claim's
"first N of the ascending sort" definition. -/
theorem c5_top_bottom_amended (rows : List URecord) (influencers : List Influencer)
    (h : (influencer_perf_table rows influencers).length = 2) :
    top_10_influencers rows influencers = influencer_performance rows influencers
    ∧ poor_performing_influencers rows influencers = influencer_performance rows influencers
    ∧ top_influencers rows influencers = influencer_performance rows influencers
    ∧ poor_influencers rows influencers
        = sortValues roiAsc (influencer_perf_table rows influencers)
    ∧ (poor_influencers rows influencers).length = 2 := by
  have hd : (influencer_performance rows influencers).length = 2 := by
    unfold influencer_performance
    rw [length_sortValues]
    exact h
  have ha : (sortValues roiAsc (influencer_perf_table rows influencers)).length = 2 := by
    rw [length_sortValues]
    exact h
  refine ⟨?_, ?_, ?_, ?_, ?_⟩
  · unfold top_10_influencers
    exact List.take_of_length_le (by rw [hd]; norm_num)
  · unfold poor_performing_influencers tailN
    rw [hd]
    simp
  · unfold top_influencers influencer_performance
    exact List.take_of_length_le (by rw [length_sortValues, h]; norm_num)
  · unfold poor_influencers
    exact List.take_of_length_le (by rw [ha]; norm_num)
  · unfold poor_influencers
    rw [List.take_of_length_le (by rw [ha]; norm_num), ha]

unseal Rat.add Rat.sub Rat.mul Rat.inv in
/-- Witness for C5's amended theorem at the two-influencer data set. -/
theorem c5_top_bottom_amended_witness :
    top_10_influencers twoCampaign twoInfluencers
      = influencer_performance twoCampaign twoInfluencers
    ∧ poor_performing_influencers twoCampaign twoInfluencers
      = influencer_performance twoCampaign twoInfluencers
    ∧ top_influencers twoCampaign twoInfluencers
      = influencer_performance twoCampaign twoInfluencers
    ∧ poor_influencers twoCampaign twoInfluencers
      = sortValues roiAsc (influencer_perf_table twoCampaign twoInfluencers)
    ∧ (poor_influencers twoCampaign twoInfluencers).length = 2 :=
  c5_top_bottom_amended twoCampaign twoInfluencers (by decide)

/-- A row produced by the tracking-influencer join keeps the tracking key,
has no payout column yet, and has null category/platform exactly when no
influencer matched (null `ID`). -/
theorem joinInfluencer_fields (influencers : List Influencer) (t : TrackingRecord)
    (r : URecord) (h : r ∈ joinInfluencer influencers t) :
    r.influencer_id = t.influencer_id ∧ r.total_payout = none
    ∧ (r.ID = none → r.category = none ∧ r.platform = none) := by
  unfold joinInfluencer at h
  cases hf : influencers.filter (fun i => t.influencer_id == some i.ID) with
  | nil =>
    rw [hf] at h
    simp only [List.mem_singleton] at h
    subst h
    exact ⟨rfl, rfl, fun _ => ⟨rfl, rfl⟩⟩
  | cons m ms =>
    rw [hf] at h
    obtain ⟨i, -, rfl⟩ := List.mem_map.mp h
    exact ⟨rfl, rfl, fun hid => (Option.some_ne_none i.ID hid).elim⟩

/-- The payout join never touches the non-payout columns. -/
theorem joinPayout_fields (payouts : List PayoutRecord) (r' r : URecord)
    (h : r ∈ joinPayout payouts r') :
    r.influencer_id = r'.influencer_id ∧ r.ID = r'.ID ∧ r.category = r'.category
    ∧ r.platform = r'.platform ∧ r.revenue = r'.revenue := by
  unfold joinPayout at h
  cases hf : payouts.filter (fun p => r'.influencer_id == some p.influencer_id) with
  | nil =>
    rw [hf] at h
    simp only [List.mem_singleton] at h
    subst h
    exact ⟨rfl, rfl, rfl, rfl, rfl⟩
  | cons q qs =>
    rw [hf] at h
    obtain ⟨p, -, rfl⟩ := List.mem_map.mp h
    exact ⟨rfl, rfl, rfl, rfl, rfl⟩

/-- When no payout row matches, the payout join passes the row through
unchanged (so its payout column is still null). -/
theorem joinPayout_no_match (payouts : List PayoutRecord) (r' r : URecord)
    (h : r ∈ joinPayout payouts r')
    (hnm : ∀ p ∈ payouts, ¬ r'.influencer_id = some p.influencer_id) :
    r = r' := by
  unfold joinPayout at h
  have hf : payouts.filter (fun p => r'.influencer_id == some p.influencer_id) = [] := by
    rw [List.filter_eq_nil_iff]
    intro p hp
    simpa using hnm p hp
  rw [hf] at h
  simpa using h

unseal Rat.add Rat.sub Rat.mul Rat.inv in
/-- C6 (counterexample): a tracking row whose `influencer_id` (7) matches no
roster influencer but does match a payout row receives that payout (5), not
the claimed 0, even though its category and platform are filled with
"Organic". -/
theorem c6_payout_without_roster_counterexample :
    campaign_data [⟨some 7, 0, "influencer", some 10⟩] [] [⟨7, 5⟩]
      = [⟨some 7, 0, "influencer", some 10, none, some "Organic", some "Organic", some 5⟩]
    ∧ (⟨some 7, 0, "influencer", some 10, none, some "Organic", some "Organic",
        some 5⟩ : URecord).ID = none
    ∧ (⟨some 7, 0, "influencer", some 10, none, some "Organic", some "Organic",
        some 5⟩ : URecord).total_payout ≠ some 0 :=
  ⟨by decide, rfl, by decide⟩

/-- C6 (amended): after join-and-normalize every unified record has non-null
category, platform, total_payout and revenue; a record from a tracking row
with no matching influencer (null joined `ID`) has category and platform
"Organic"; its total_payout is 0 provided its `influencer_id` also matches
no payout row — in particular whenever `influencer_id` is null (organic
traffic).  A dangling `influencer_id` present in payouts but not the roster
instead receives that payout (see the counterexample). -/
theorem c6_join_normalize_amended (tracking : List TrackingRecord)
    (influencers : List Influencer) (payouts : List PayoutRecord) (r : URecord)
    (h : r ∈ campaign_data tracking influencers payouts) :
    (r.category.isSome ∧ r.platform.isSome ∧ r.total_payout.isSome ∧ r.revenue.isSome)
    ∧ (r.ID = none → r.category = some "Organic" ∧ r.platform = some "Organic")
    ∧ ((∀ p ∈ payouts, ¬ r.influencer_id = some p.influencer_id) → r.total_payout = some 0)
    ∧ (r.influencer_id = none → r.total_payout = some 0) := by
  unfold campaign_data at h
  obtain ⟨r₂, h₂, rfl⟩ := List.mem_map.mp h
  obtain ⟨r₁, h₁, h₁₂⟩ := List.mem_flatMap.mp h₂
  obtain ⟨t, -, hjoin⟩ := List.mem_flatMap.mp h₁
  obtain ⟨hid1, hpay1, horg1⟩ := joinInfluencer_fields influencers t r₁ hjoin
  obtain ⟨hid2, hID2, hcat2, hplat2, hrev2⟩ := joinPayout_fields payouts r₁ r₂ h₁₂
  have hfid : (fillDefaults r₂).influencer_id = r₂.influencer_id := rfl
  have hnopay : (∀ p ∈ payouts, ¬ (fillDefaults r₂).influencer_id = some p.influencer_id)
      → (fillDefaults r₂).total_payout = some 0 := by
    intro hnm
    have hnm' : ∀ p ∈ payouts, ¬ r₁.influencer_id = some p.influencer_id := by
      intro p hp h'
      exact hnm p hp (by rw [hfid, hid2]; exact h')
    have heq := joinPayout_no_match payouts r₁ r₂ h₁₂ hnm'
    show some (r₂.total_payout.getD 0) = some 0
    rw [heq, hpay1]
    rfl
  refine ⟨⟨rfl, rfl, rfl, rfl⟩, ?_, hnopay, ?_⟩
  · intro hidnone
    have hID1 : r₁.ID = none := by rw [← hID2]; exact hidnone
    obtain ⟨hc, hp⟩ := horg1 hID1
    constructor
    · show some (r₂.category.getD "Organic") = some "Organic"
      rw [hcat2, hc]
      rfl
    · show some (r₂.platform.getD "Organic") = some "Organic"
      rw [hplat2, hp]
      rfl
  · intro hidn
    apply hnopay
    intro p hp
    rw [hfid] at hidn ⊢
    rw [hidn]
    simp

/-- Witness for C6's amended theorem: the organic (null `influencer_id`)
unified row of the sample data is filled with "Organic" and payout 0. -/
theorem c6_join_normalize_amended_witness :
    (⟨none, 0, "organic", some 50, none, some "Organic", some "Organic",
      some 0⟩ : URecord).category = some "Organic"
    ∧ (⟨none, 0, "organic", some 50, none, some "Organic", some "Organic",
      some 0⟩ : URecord).total_payout = some 0 := by
  have h := c6_join_normalize_amended sampleTracking sampleInfluencers samplePayouts
    ⟨none, 0, "organic", some 50, none, some "Organic", some "Organic", some 0⟩ (by decide)
  exact ⟨(h.2.1 rfl).1, h.2.2.2 rfl⟩

/-- Rows surviving the category step come from the input. -/
theorem mem_of_mem_categoryStep {f : Filter} {rows : List URecord} {r : URecord}
    (h : r ∈ categoryStep f rows) : r ∈ rows := by
  unfold categoryStep at h
  split at h
  · exact h
  · exact (List.mem_filter.mp h).1

/-- Rows surviving the platform step come from the input. -/
theorem mem_of_mem_platformStep {f : Filter} {rows : List URecord} {r : URecord}
    (h : r ∈ platformStep f rows) : r ∈ rows := by
  unfold platformStep at h
  split at h
  · exact h
  · exact (List.mem_filter.mp h).1

/-- When the category dimension is really filtered, surviving rows satisfy
the predicate. -/
theorem catPass_of_mem_categoryStep {f : Filter} {rows : List URecord} {r : URecord}
    (h : r ∈ categoryStep f rows)
    (hall : f.selected_categories.contains "All" = false) : catPass f r = true := by
  unfold categoryStep at h
  split at h
  · next hc => exact absurd hc (by simpa using hall)
  · exact (List.mem_filter.mp h).2

/-- When the platform dimension is really filtered, surviving rows satisfy
the predicate. -/
theorem platPass_of_mem_platformStep {f : Filter} {rows : List URecord} {r : URecord}
    (h : r ∈ platformStep f rows)
    (hall : f.selected_platforms.contains "All" = false) : platPass f r = true := by
  unfold platformStep at h
  split at h
  · next hc => exact absurd hc (by simpa using hall)
  · exact (List.mem_filter.mp h).2

/-- The category step fixes any list all of whose rows pass it. -/
theorem categoryStep_eq_self {f : Filter} {l : List URecord}
    (hsub : ∀ r ∈ l, f.selected_categories.contains "All" = true ∨ catPass f r = true) :
    categoryStep f l = l := by
  unfold categoryStep
  split
  · rfl
  · next hc =>
    apply List.filter_eq_self.mpr
    intro a ha
    rcases hsub a ha with h1 | h1
    · exact absurd h1 (by simpa using hc)
    · exact h1

/-- The platform step fixes any list all of whose rows pass it. -/
theorem platformStep_eq_self {f : Filter} {l : List URecord}
    (hsub : ∀ r ∈ l, f.selected_platforms.contains "All" = true ∨ platPass f r = true) :
    platformStep f l = l := by
  unfold platformStep
  split
  · rfl
  · next hc =>
    apply List.filter_eq_self.mpr
    intro a ha
    rcases hsub a ha with h1 | h1
    · exact absurd h1 (by simpa using hc)
    · exact h1

/-- C7: the filter application is idempotent — running `filtered_df` again
with the same sidebar state on its own output returns that output unchanged
(it is side-effect-free by construction: every step builds a new list and
the input record set is never modified). -/
theorem c7_filter_idempotent (rows : List URecord) (f : Filter) (out : List URecord)
    (h : filtered_df rows f = .ok out) : filtered_df out f = .ok out := by
  cases hdr : f.date_range with
  | nil =>
    simp only [filtered_df, hdr, Except.ok.injEq] at h ⊢
    subst h
    have hcat : categoryStep f (platformStep f (categoryStep f rows))
        = platformStep f (categoryStep f rows) := by
      apply categoryStep_eq_self
      intro r hr
      cases hall : f.selected_categories.contains "All" with
      | true => exact Or.inl rfl
      | false =>
        exact Or.inr (catPass_of_mem_categoryStep (mem_of_mem_platformStep hr) hall)
    rw [hcat]
    apply platformStep_eq_self
    intro r hr
    cases hall : f.selected_platforms.contains "All" with
    | true => exact Or.inl rfl
    | false => exact Or.inr (platPass_of_mem_platformStep hr hall)
  | cons d ds =>
    cases ds with
    | nil => simp [filtered_df, hdr] at h
    | cons e es =>
      cases es with
      | nil =>
        simp only [filtered_df, hdr, Except.ok.injEq] at h ⊢
        subst h
        set X := (platformStep f (categoryStep f rows)).filter
          (fun r => decide (d ≤ r.date) && decide (r.date ≤ e)) with hX
        have hmemX : ∀ r ∈ X, r ∈ platformStep f (categoryStep f rows) := by
          intro r hr
          rw [hX] at hr
          exact (List.mem_filter.mp hr).1
        have hcat : categoryStep f X = X := by
          apply categoryStep_eq_self
          intro r hr
          cases hall : f.selected_categories.contains "All" with
          | true => exact Or.inl rfl
          | false =>
            exact Or.inr (catPass_of_mem_categoryStep
              (mem_of_mem_platformStep (hmemX r hr)) hall)
        have hplat : platformStep f X = X := by
          apply platformStep_eq_self
          intro r hr
          cases hall : f.selected_platforms.contains "All" with
          | true => exact Or.inl rfl
          | false => exact Or.inr (platPass_of_mem_platformStep (hmemX r hr) hall)
        rw [hcat, hplat]
        apply List.filter_eq_self.mpr
        intro a ha
        rw [hX] at ha
        exact (List.mem_filter.mp ha).2
      | cons x l => simp [filtered_df, hdr] at h

/-- Witness for C7: filtering the day-0 rows of the sample data again with
the day-0 sidebar state returns them unchanged. -/
theorem c7_filter_idempotent_witness :
    filtered_df dayZeroRows dayZeroFilter = .ok dayZeroRows :=
  c7_filter_idempotent sampleCampaign dayZeroFilter dayZeroRows rfl

/-- A column sum splits into the part from rows satisfying a predicate and
the part from the remaining rows. -/
theorem sum_map_split (l : List URecord) (p : URecord → Bool) (g : URecord → ℚ) :
    ((l.map g).sum : ℚ)
      = ((l.filter p).map g).sum + (((l.filter fun r => !p r).map g).sum : ℚ) := by
  induction l with
  | nil => simp
  | cons a t ih =>
    cases hp : p a <;> simp [List.filter_cons, hp, ih] <;> ring

/-- Dropping the null-`ID` rows does not change the collected group keys. -/
theorem filterMap_ID_filter (rows : List URecord) :
    (rows.filter fun r => r.ID.isSome).filterMap (fun r => r.ID)
      = rows.filterMap fun r => r.ID := by
  induction rows with
  | nil => rfl
  | cons a t ih =>
    cases ha : a.ID with
    | none => simp [List.filter_cons, List.filterMap_cons, ha, ih]
    | some v => simp [List.filter_cons, List.filterMap_cons, ha, ih]

/-- Dropping the null-`ID` rows does not change any `ID`-group's rows. -/
theorem filter_IDkey_filter (rows : List URecord) (k : Nat) :
    (rows.filter fun r => r.ID.isSome).filter (fun r => r.ID == some k)
      = rows.filter fun r => r.ID == some k := by
  rw [List.filter_filter]
  apply List.filter_congr
  intro a _
  cases ha : a.ID <;> simp [ha]

/-- Grouping by the joined `ID` ignores the null-`ID` (organic) rows
entirely: pandas `groupby` drops null keys. -/
theorem groupTotals_ID_drop (rows : List URecord) :
    groupTotals (fun a b => decide (a < b)) (fun r => r.ID)
        (rows.filter fun r => r.ID.isSome)
      = groupTotals (fun a b => decide (a < b)) (fun r => r.ID) rows := by
  unfold groupTotals
  rw [filterMap_ID_filter]
  apply List.map_congr_left
  intro k _
  have h1 := filter_IDkey_filter rows k
  simp only at h1 ⊢
  rw [h1]

unseal Rat.add Rat.sub Rat.mul Rat.inv in
/-- C9: every per-influencer table — the base aggregation, the dashboard
leaderboard, and the report's top/bottom lists — is unchanged when the
null-`ID` (organic / unmatched) rows are removed first, i.e. those rows are
excluded from every per-influencer summary; yet the same rows do
contribute to the overall totals (the total revenue decomposes into the
matched part plus the organic part) and to the category aggregation (on
the sample data the category table changes when they are dropped). -/
theorem c9_organic_rows_excluded (rows : List URecord) (influencers : List Influencer) :
    influencer_perf_table rows influencers
      = influencer_perf_table (rows.filter fun r => r.ID.isSome) influencers
    ∧ influencer_performance rows influencers
      = influencer_performance (rows.filter fun r => r.ID.isSome) influencers
    ∧ top_influencers rows influencers
      = top_influencers (rows.filter fun r => r.ID.isSome) influencers
    ∧ poor_influencers rows influencers
      = poor_influencers (rows.filter fun r => r.ID.isSome) influencers
    ∧ total_revenue rows
      = total_revenue (rows.filter fun r => r.ID.isSome)
        + total_revenue (rows.filter fun r => !r.ID.isSome)
    ∧ category_revenue sampleCampaign
      ≠ category_revenue (sampleCampaign.filter fun r => r.ID.isSome) := by
  have htbl : influencer_perf_table rows influencers
      = influencer_perf_table (rows.filter fun r => r.ID.isSome) influencers := by
    unfold influencer_perf_table
    rw [groupTotals_ID_drop]
  refine ⟨htbl, ?_, ?_, ?_, ?_, ?_⟩
  · unfold influencer_performance
    rw [htbl]
  · unfold top_influencers
    rw [htbl]
  · unfold poor_influencers
    rw [htbl]
  · exact sum_map_split rows (fun r => r.ID.isSome) (fun r => r.revenue.getD 0)
  · decide

end Dashboard
